import Mathlib

/-!
Shallow embedding of the derived-presentation layer of `src/app.py`
(a static Streamlit dashboard over hand-curated literal tables), together
with theorems settling the specification's claims about it.

The literal tables (`violation_data`, `growth_data`, `facility_data`,
`sophistication_data`, `keyword_data`) are transcribed from the DATA
section of `src/app.py`; the conditional color / label / text-format
rules are transcribed from the chart-construction expressions.
Python floats in the tables carry at most two decimal digits and are
embedded as exact rationals; every comparison the code performs on them
(`> 0`, `> 1`) is sign-exact at these magnitudes, so the rational
embedding agrees with the float code on all table values.
-/

namespace App

/-- Constant `TOTAL_OBSERVATIONS = 141` (src/app.py line 110). -/
def TOTAL_OBSERVATIONS : Nat := 141

/-- Constant `TOTAL_LETTERS = 111` (src/app.py line 111). -/
def TOTAL_LETTERS : Nat := 111

/-- A row of `violation_data`: violation type, count, percentage
(src/app.py lines 122-136). -/
structure ViolationRow where
  vtype : String
  count : Nat
  percentage : ℚ
deriving DecidableEq, Repr

/-- Table `violation_data` (src/app.py lines 122-136). -/
def violation_data : List ViolationRow :=
  [ ⟨"Audit Trail Failures", 49, 348/10⟩,
    ⟨"Automatic Equipment Controls (211.68)", 40, 284/10⟩,
    ⟨"Chromatography Data Systems", 24, 170/10⟩,
    ⟨"Electronic Records", 24, 170/10⟩,
    ⟨"Password & Login Issues", 24, 170/10⟩,
    ⟨"Computerized Systems General", 22, 156/10⟩,
    ⟨"Access Control Failures", 21, 149/10⟩,
    ⟨"Software Validation", 19, 135/10⟩,
    ⟨"Data Backup Deficiencies", 8, 57/10⟩ ]

/-- A row of `sophistication_data`: region, basic-failure %, complex-failure %,
sophistication ratio (src/app.py lines 146-151). -/
structure SophRow where
  region : String
  basicFailures : ℚ
  complexFailures : ℚ
  ratioValue : ℚ
deriving DecidableEq, Repr

/-- Table `sophistication_data` (src/app.py lines 146-151). -/
def sophistication_data : List SophRow :=
  [ ⟨"United States", 364/10, 343/10, 94/100⟩,
    ⟨"India", 211/10, 228/10, 108/100⟩,
    ⟨"China", 333/10, 222/10, 67/100⟩ ]

/-- A row of `facility_data`: facility type, audit-trail violation count,
other-CSV violation count (src/app.py lines 154-158). -/
structure FacilityRow where
  ftype : String
  auditTrailViolations : Nat
  otherCsvViolations : Nat
deriving DecidableEq, Repr

/-- Table `facility_data` (src/app.py lines 154-158). -/
def facility_data : List FacilityRow :=
  [ ⟨"QC Laboratory", 17, 12⟩,
    ⟨"API Manufacturing", 11, 15⟩,
    ⟨"Sterile Manufacturing", 3, 11⟩,
    ⟨"Finished Dosage", 6, 9⟩,
    ⟨"Other", 12, 45⟩ ]

/-- A row of `growth_data`: violation type, 2022 count, 2024 count and the
stored year-over-year growth percentage (src/app.py lines 161-166). -/
structure GrowthRow where
  vtype : String
  y2022 : Int
  y2024 : Int
  growthPct : Int
deriving DecidableEq, Repr

/-- Table `growth_data` (src/app.py lines 161-166). -/
def growth_data : List GrowthRow :=
  [ ⟨"Audit Trail", 9, 12, 33⟩,
    ⟨"Password Security", 7, 3, -57⟩,
    ⟨"Electronic Records", 4, 4, 0⟩,
    ⟨"Equipment Controls", 7, 7, 0⟩ ]

/-- A row of `keyword_data`: finding label and percent of observations
(src/app.py lines 181-184). -/
structure KeywordRow where
  finding : String
  pctOfObservations : ℚ
deriving DecidableEq, Repr

/-- Table `keyword_data` (src/app.py lines 181-184). -/
def keyword_data : List KeywordRow :=
  [ ⟨"Delete capability", 156/10⟩,
    ⟨"Administrator access", 99/10⟩,
    ⟨"Shared credentials", 71/10⟩,
    ⟨"Not enabled", 64/10⟩,
    ⟨"Spreadsheet use", 78/10⟩,
    ⟨"Backup issues", 57/10⟩,
    ⟨"Manual workarounds", 43/10⟩ ]

/-- The per-value body of the growth-chart color comprehension
`'#dc2626' if g > 0 else '#059669'` (src/app.py line 652); the spec calls
this operation `encodeSignedColor`. -/
def encodeSignedColor (g : Int) : String :=
  if g > 0 then "#dc2626" else "#059669"

/-- The growth-chart color list
`['#dc2626' if g > 0 else '#059669' for g in growth_data['Growth_Pct']]`
(src/app.py line 652). -/
def growthColors : List String :=
  growth_data.map (fun r => encodeSignedColor r.growthPct)

/-- Python's `f"{g:+d}"` signed-integer formatting: an explicit `+`/`-`
sign followed by the decimal digits of the magnitude. -/
def formatSignedInt (g : Int) : String :=
  (if g < 0 then "-" else "+") ++ toString g.natAbs

/-- The signed-percent text of the growth chart: src/app.py line 658 renders
each bar's label as `f"<b>{g:+d}%</b>"`; the spec's `formatSignedPercentLabel`
is the sign-and-percent core `{g:+d}%` of that format. -/
def formatSignedPercentLabel (g : Int) : String :=
  formatSignedInt g ++ "%"

/-- The full bar-label text list of the growth chart,
`[f"<b>{g:+d}%</b>" for g in growth_data['Growth_Pct']]` (src/app.py line 658). -/
def growthTexts : List String :=
  growth_data.map (fun r => "<b>" ++ formatSignedPercentLabel r.growthPct ++ "</b>")

/-- The spec's three-way classification of a sophistication ratio against the
threshold 1.0 (spec section 4.1, `enum ABOVE BELOW EQUAL`). -/
inductive RatioInterp where
  | ABOVE
  | BELOW
  | EQUAL
deriving DecidableEq, Repr

/-- The branch structure of the sophistication-ratio loop
(src/app.py lines 524-530): the code tests the strict comparison
`if ratio > 1`, so a ratio of exactly 1 falls into the else branch.
The spec names this operation `interpretRatioValue` (its `interpretRatio`);
the EQUAL constructor is never produced by the code. -/
def interpretRatioValue (r : ℚ) : RatioInterp :=
  if r > 1 then RatioInterp.ABOVE else RatioInterp.BELOW

/-- The color chosen by the sophistication-ratio branch
(src/app.py lines 524-530): `'#059669'` when `ratio > 1`, else `'#dc2626'`. -/
def ratioColor (r : ℚ) : String :=
  if r > 1 then "#059669" else "#dc2626"

/-- The label chosen by the sophistication-ratio branch
(src/app.py lines 524-530): `"More complex than basic"` when `ratio > 1`,
else `"More basic than complex"`. -/
def ratioLabel (r : ℚ) : String :=
  if r > 1 then "More complex than basic" else "More basic than complex"

/-- The violation-chart color comprehension
`['#dc2626' if i == 0 else '#475569' for i in range(len(violation_data))]`
(src/app.py line 381): emphasis on row index 0, neutral elsewhere. -/
def violationColors : List String :=
  (List.range violation_data.length).map
    (fun i => if i = 0 then "#dc2626" else "#475569")

/-- The fixed emphasis set of the keyword chart
(src/app.py lines 570-571). -/
def keywordEmphasisSet : List String :=
  ["Delete capability", "Spreadsheet use", "Administrator access"]

/-- The keyword-chart color comprehension
`['#dc2626' if kw in [...] else '#64748b' for kw in keyword_data['Finding']]`
(src/app.py lines 570-571). -/
def keywordColors : List String :=
  keyword_data.map
    (fun r => if r.finding ∈ keywordEmphasisSet then "#dc2626" else "#64748b")

/-- Stable descending insertion of index `i` into an index list already
sorted descending by `measure`: `i` passes an element only when its measure
is strictly greater, so ties keep the earlier-inserted (original-order)
index first. -/
def insertDesc (measure : Nat → Nat) (i : Nat) : List Nat → List Nat
  | [] => [i]
  | j :: js => if measure i > measure j then i :: j :: js else j :: insertDesc measure i js

/-- Modelled from the spec: `rankRows(table, byMeasure)` (spec section 4.1) —
the ordered sequence of row indices, descending by measure, ties broken by
original table order (stable sort). The repository has no ranking function;
its violation chart instead relies on `violation_data` already being listed
in this order. Implemented as a stable insertion sort of `List.range` over
the measure column. -/
def rankRows (measures : List Nat) : List Nat :=
  (List.range measures.length).foldl
    (fun acc i => insertDesc (fun k => measures.getD k 0) i acc) []

/-- The Count column of `violation_data` (src/app.py line 134). -/
def violationCounts : List Nat :=
  violation_data.map (fun r => r.count)

/-- The exact year-over-year growth formula stated by the spec's data-model
invariant for the Growth table: growth% = (B - A) / A * 100, signed. -/
def growthFormula (a b : Int) : ℚ :=
  ((b : ℚ) - (a : ℚ)) / (a : ℚ) * 100

/-- C1 (counterexample): the claim that `encodeSignedColor 0` returns the same
color as `encodeSignedColor 1` is false on the code: line 652 tests the strict
comparison `g > 0`, so zero falls into the else branch and gets `'#059669'`
while `+1` gets `'#dc2626'`. -/
theorem C1_counterexample : ¬ (encodeSignedColor 0 = encodeSignedColor 1) := by
  decide

/-- C1 (amended): `encodeSignedColor` maps a signed delta to exactly one of the
two fixed colors `'#dc2626'` / `'#059669'`, and zero is treated as
NON-POSITIVE: `encodeSignedColor 0` equals `encodeSignedColor (-1)` (both get
the decrease color `'#059669'`), while every strictly positive delta gets
`'#dc2626'`, because the branch condition of src/app.py line 652 is the strict
comparison `g > 0`. -/
theorem C1_zero_gets_decrease_color :
    (∀ v : Int, encodeSignedColor v = "#dc2626" ∨ encodeSignedColor v = "#059669") ∧
    encodeSignedColor 0 = encodeSignedColor (-1) ∧
    encodeSignedColor 0 = "#059669" ∧
    (∀ v : Int, 0 < v → encodeSignedColor v = "#dc2626") ∧
    (∀ v : Int, v ≤ 0 → encodeSignedColor v = "#059669") := by
  refine ⟨fun v => ?_, by decide, by decide, fun v hv => ?_, fun v hv => ?_⟩
  · unfold encodeSignedColor
    split
    · exact Or.inl rfl
    · exact Or.inr rfl
  · simp [encodeSignedColor, hv]
  · simp [encodeSignedColor, not_lt.mpr hv]

/-- C1 witness: the amended theorem evaluated at the concrete deltas 1 and 0. -/
theorem C1_zero_gets_decrease_color_witness :
    ((0 : Int) < 1 ∧ encodeSignedColor 1 = "#dc2626") ∧
    ((0 : Int) ≤ 0 ∧ encodeSignedColor 0 = "#059669") :=
  ⟨⟨by decide, C1_zero_gets_decrease_color.2.2.2.1 1 (by decide)⟩,
   ⟨by decide, C1_zero_gets_decrease_color.2.2.2.2 0 (by decide)⟩⟩

/-- C2: `formatSignedPercentLabel` renders an integer delta with an explicit
leading sign and a trailing percent glyph: `+33%`, `-57%`, and zero renders
with a plus sign as `+0%`; in general every non-negative integer renders as
`+` followed by its digits and `%`, and every negative integer as `-` followed
by the digits of its magnitude and `%` (src/app.py line 658, the `{g:+d}%`
core of the f-string). -/
theorem C2_formatSignedPercentLabel_spec :
    formatSignedPercentLabel 33 = "+33%" ∧
    formatSignedPercentLabel (-57) = "-57%" ∧
    formatSignedPercentLabel 0 = "+0%" ∧
    ∀ g : Int,
      (0 ≤ g → formatSignedPercentLabel g = ("+" ++ toString g.natAbs) ++ "%") ∧
      (g < 0 → formatSignedPercentLabel g = ("-" ++ toString g.natAbs) ++ "%") := by
  refine ⟨by decide, by decide, by decide, fun g => ⟨fun h => ?_, fun h => ?_⟩⟩
  · simp [formatSignedPercentLabel, formatSignedInt, not_lt.mpr h]
  · simp [formatSignedPercentLabel, formatSignedInt, h]

/-- C2 witness: the general sign rule evaluated at the concrete deltas
33 and -57. -/
theorem C2_formatSignedPercentLabel_witness :
    ((0 : Int) ≤ 33 ∧ formatSignedPercentLabel 33 = ("+" ++ toString (33 : Int).natAbs) ++ "%") ∧
    ((-57 : Int) < 0 ∧ formatSignedPercentLabel (-57) = ("-" ++ toString (-57 : Int).natAbs) ++ "%") :=
  ⟨⟨by decide, (C2_formatSignedPercentLabel_spec.2.2.2 33).1 (by decide)⟩,
   ⟨by decide, (C2_formatSignedPercentLabel_spec.2.2.2 (-57)).2 (by decide)⟩⟩

/-- C3: the sophistication-ratio branch is a pure comparison against the
threshold 1: every ratio above 1 is classified ABOVE with the label
"More complex than basic" and color `'#059669'`; every ratio below 1 is
classified BELOW with the label "More basic than complex" and the other fixed
color `'#dc2626'`; in particular 1.08 is ABOVE and 0.67 is BELOW, and the two
colors are distinct (src/app.py lines 524-530). -/
theorem C3_ratio_branches :
    (∀ r : ℚ, 1 < r →
      interpretRatioValue r = RatioInterp.ABOVE ∧
      ratioLabel r = "More complex than basic" ∧ ratioColor r = "#059669") ∧
    (∀ r : ℚ, r < 1 →
      interpretRatioValue r = RatioInterp.BELOW ∧
      ratioLabel r = "More basic than complex" ∧ ratioColor r = "#dc2626") ∧
    interpretRatioValue (108/100) = RatioInterp.ABOVE ∧
    interpretRatioValue (67/100) = RatioInterp.BELOW ∧
    ("#059669" : String) ≠ "#dc2626" := by
  refine ⟨fun r h => ?_, fun r h => ?_, ?_, ?_, by decide⟩
  · simp [interpretRatioValue, ratioLabel, ratioColor, h]
  · simp [interpretRatioValue, ratioLabel, ratioColor, not_lt.mpr h.le]
  · norm_num [interpretRatioValue]
  · norm_num [interpretRatioValue]

/-- C3 witness: the two branch rules evaluated at the concrete table ratios
1.08 and 0.67. -/
theorem C3_ratio_branches_witness :
    ((1 : ℚ) < 108/100 ∧
      (interpretRatioValue (108/100) = RatioInterp.ABOVE ∧
       ratioLabel (108/100) = "More complex than basic" ∧
       ratioColor (108/100) = "#059669")) ∧
    ((67/100 : ℚ) < 1 ∧
      (interpretRatioValue (67/100) = RatioInterp.BELOW ∧
       ratioLabel (67/100) = "More basic than complex" ∧
       ratioColor (67/100) = "#dc2626")) :=
  ⟨⟨by norm_num, C3_ratio_branches.1 (108/100) (by norm_num)⟩,
   ⟨by norm_num, C3_ratio_branches.2.1 (67/100) (by norm_num)⟩⟩

/-- C4: for every row of the violation taxonomy table, the stored percentage
differs from count / TOTAL_OBSERVATIONS * 100 by at most 0.05
(src/app.py lines 110 and 122-136). -/
theorem C4_percentage_consistency :
    ∀ r ∈ violation_data,
      |r.percentage - (r.count : ℚ) / (TOTAL_OBSERVATIONS : ℚ) * 100| ≤ 5/100 := by
  intro r hr
  fin_cases hr <;> norm_num [TOTAL_OBSERVATIONS, abs_le]

/-- C4 witness: the bound evaluated at the first table row
(Audit Trail Failures, 49, 34.8). -/
theorem C4_percentage_consistency_witness :
    (⟨"Audit Trail Failures", 49, 348/10⟩ : ViolationRow) ∈ violation_data ∧
    |(⟨"Audit Trail Failures", 49, 348/10⟩ : ViolationRow).percentage -
        ((⟨"Audit Trail Failures", 49, 348/10⟩ : ViolationRow).count : ℚ) /
          (TOTAL_OBSERVATIONS : ℚ) * 100| ≤ 5/100 :=
  ⟨List.mem_cons_self _ _,
   C4_percentage_consistency _ (List.mem_cons_self _ _)⟩

/-- C5: each category-color comprehension returns one color per input row,
aligned by row index: the violation chart assigns the emphasis color
`'#dc2626'` to exactly row index 0 and the neutral `'#475569'` to every other
row, and the keyword chart assigns `'#dc2626'` to exactly the rows whose
label lies in the fixed emphasis set and `'#64748b'` to the rest; emphasis and
neutral colors are distinct (src/app.py lines 381 and 570-571). -/
theorem C5_category_colors :
    violationColors.length = violation_data.length ∧
    keywordColors.length = keyword_data.length ∧
    (∀ i : Nat, i < violationColors.length →
      violationColors.getD i "" = if i = 0 then "#dc2626" else "#475569") ∧
    (∀ i : Nat, i < keywordColors.length →
      keywordColors.getD i "" =
        if (keyword_data.getD i ⟨"", 0⟩).finding ∈ keywordEmphasisSet
        then "#dc2626" else "#64748b") ∧
    ("#dc2626" : String) ≠ "#475569" ∧ ("#dc2626" : String) ≠ "#64748b" := by
  refine ⟨by decide, by decide, fun i hi => ?_, fun i hi => ?_, by decide, by decide⟩
  · have h9 : i < 9 := hi
    interval_cases i <;> decide
  · have h7 : i < 7 := hi
    interval_cases i <;> decide

/-- C5 witness: the two indexing rules evaluated at concrete row indices
0 (the emphasized violation row) and 1 (the emphasized keyword row
"Administrator access"). -/
theorem C5_category_colors_witness :
    ((0 : Nat) < violationColors.length ∧
      violationColors.getD 0 "" = if (0 : Nat) = 0 then "#dc2626" else "#475569") ∧
    ((1 : Nat) < keywordColors.length ∧
      keywordColors.getD 1 "" =
        if (keyword_data.getD 1 ⟨"", 0⟩).finding ∈ keywordEmphasisSet
        then "#dc2626" else "#64748b") :=
  ⟨⟨by decide, C5_category_colors.2.2.1 0 (by decide)⟩,
   ⟨by decide, C5_category_colors.2.2.2.1 1 (by decide)⟩⟩

/-- C6: ranking the violation-type counts [49,40,24,24,24,22,21,19,8]
descending with the stable `rankRows` yields [0,1,2,3,4,5,6,7,8]: index 0
comes first (its count 49 is the maximum of the column), and the three rows
tied at 24 appear in their original relative order [2,3,4]. -/
theorem C6_rankRows_violations :
    rankRows violationCounts = [0, 1, 2, 3, 4, 5, 6, 7, 8] ∧
    (rankRows violationCounts).head? = some 0 ∧
    violationCounts.getD 0 0 = 49 ∧
    violationCounts.foldr max 0 = 49 ∧
    (rankRows violationCounts).filter
      (fun i => violationCounts.getD i 0 == 24) = [2, 3, 4] := by
  refine ⟨by decide, by decide, by decide, by decide, by decide⟩

/-- C7 (counterexample): the claim that the stored growth percentage EQUALS
(B - A) / A * 100 exactly is false at the first growth row
(Audit Trail, A = 9, B = 12): the formula gives 100/3 = 33.33..., while the
stored value is the integer 33 (src/app.py lines 161-166). -/
theorem C7_counterexample :
    growth_data.getD 0 ⟨"", 0, 0, 0⟩ = ⟨"Audit Trail", 9, 12, 33⟩ ∧
    ¬ (((growth_data.getD 0 ⟨"", 0, 0, 0⟩).growthPct : ℚ) =
        growthFormula (growth_data.getD 0 ⟨"", 0, 0, 0⟩).y2022
          (growth_data.getD 0 ⟨"", 0, 0, 0⟩).y2024) := by
  refine ⟨rfl, ?_⟩
  show ¬ ((33 : ℚ) = growthFormula 9 12)
  norm_num [growthFormula]

/-- C7 (amended): for every row of the growth table, the stored growth
percentage equals (B - A) / A * 100 rounded to the nearest integer; in
particular the rows (9,12), (7,3), (4,4), (7,7) store 33, -57, 0, 0. -/
theorem C7_growth_rounded :
    (∀ r ∈ growth_data, r.growthPct = round (growthFormula r.y2022 r.y2024)) ∧
    growth_data.map (fun r => r.growthPct) = [33, -57, 0, 0] := by
  refine ⟨fun r hr => ?_, rfl⟩
  fin_cases hr <;> norm_num [growthFormula, round_eq]

/-- C7 witness: the rounded-growth rule evaluated at the first growth row
(Audit Trail, 9, 12, 33). -/
theorem C7_growth_rounded_witness :
    (⟨"Audit Trail", 9, 12, 33⟩ : GrowthRow) ∈ growth_data ∧
    (33 : Int) = round (growthFormula 9 12) :=
  ⟨List.mem_cons_self _ _,
   C7_growth_rounded.1 ⟨"Audit Trail", 9, 12, 33⟩ (List.mem_cons_self _ _)⟩

/-- C9: a sophistication ratio exactly equal to 1 resolves to the BELOW
branch: the strict condition `ratio > 1` of src/app.py line 525 fails, so
ratio 1 gets the color `'#dc2626'` and the label "More basic than complex",
the same outputs as every ratio strictly below 1. -/
theorem C9_equal_resolves_below :
    interpretRatioValue 1 = RatioInterp.BELOW ∧
    ratioColor 1 = "#dc2626" ∧
    ratioLabel 1 = "More basic than complex" ∧
    ∀ r : ℚ, r < 1 →
      ratioColor r = ratioColor 1 ∧
      ratioLabel r = ratioLabel 1 ∧
      interpretRatioValue r = interpretRatioValue 1 := by
  refine ⟨?_, ?_, ?_, fun r h => ?_⟩
  · simp [interpretRatioValue]
  · simp [ratioColor]
  · simp [ratioLabel]
  · simp [interpretRatioValue, ratioColor, ratioLabel, not_lt.mpr h.le]

/-- C9 witness: the agreement of ratio 1 with the strict-below branch,
evaluated at the concrete table ratio 0.67. -/
theorem C9_equal_resolves_below_witness :
    (67/100 : ℚ) < 1 ∧
    (ratioColor (67/100) = ratioColor 1 ∧
     ratioLabel (67/100) = ratioLabel 1 ∧
     interpretRatioValue (67/100) = interpretRatioValue 1) :=
  ⟨by norm_num, C9_equal_resolves_below.2.2.2 (67/100) (by norm_num)⟩

/-- C10: the literal tables are mutually consistent with the declared total:
the Audit Trail Violations column of `facility_data` sums to 49, which equals
the Audit Trail Failures count of `violation_data` row 0, and the sum of both
facility columns, 49 + 92, equals TOTAL_OBSERVATIONS = 141
(src/app.py lines 110, 122-136, 153-158). -/
theorem C10_table_consistency :
    (facility_data.map (fun r => r.auditTrailViolations)).sum = 49 ∧
    (violation_data.getD 0 ⟨"", 0, 0⟩).vtype = "Audit Trail Failures" ∧
    (violation_data.getD 0 ⟨"", 0, 0⟩).count = 49 ∧
    (facility_data.map (fun r => r.otherCsvViolations)).sum = 92 ∧
    (facility_data.map (fun r => r.auditTrailViolations)).sum +
      (facility_data.map (fun r => r.otherCsvViolations)).sum = TOTAL_OBSERVATIONS := by
  refine ⟨by decide, rfl, by decide, by decide, by decide⟩

end App

